import Mathlib

/-!
Verification of the database reset orchestrator
(`backend/database/reset_db.py`).

The embedding covers:
* the persistent store (tables `users`, `accounts`, `positions`) and the
  data-access operations used by the script; the data-access layer itself
  lives outside the provided sources, so those operations are modelled
  from the data model of the specification;
* `drop_all_tables` (schema teardown);
* `create_test_data` (the fixture provisioner), translated block by block;
* `main` (the orchestrator), with external processes represented by their
  captured results and effects recorded as an event trace.

Decimal values are embedded as rationals (Python `Decimal` is exact).
-/

/-- Row of the `users` table as relevant to the reset script. -/
structure UserRow where
  clerk_user_id : String
  display_name : String
  years_until_retirement : Nat
  target_retirement_income : Rat
  deriving DecidableEq

/-- Row of the `accounts` table: surrogate id plus owning identity. -/
structure AccountRow where
  id : Nat
  clerk_user_id : String
  account_name : String
  account_purpose : String
  cash_balance : Rat
  cash_interest : Rat
  deriving DecidableEq

/-- Row of the `positions` table: owning account, symbol, quantity. -/
structure PositionRow where
  account_id : Nat
  symbol : String
  quantity : Rat
  deriving DecidableEq

/-- The persistent store seen by the fixture provisioner: the three tables
it touches, plus the surrogate-id counter for accounts. -/
structure Store where
  users : List UserRow
  accounts : List AccountRow
  positions : List PositionRow
  nextAccountId : Nat
  deriving DecidableEq

/-- Modelled from the spec: `users.find_by_clerk_id` looks an identity up
by its unique natural key (the external-auth identifier). -/
def Store.find_by_clerk_id (s : Store) (cid : String) : Option UserRow :=
  s.users.find? (fun u => u.clerk_user_id == cid)

/-- Modelled from the spec: `users.create_user` inserts a new identity row. -/
def Store.create_user (s : Store) (cid name : String) (years : Nat)
    (income : Rat) : Store :=
  { s with users := s.users ++ [⟨cid, name, years, income⟩] }

/-- Modelled from the spec: `accounts.find_by_user` returns all account
rows belonging to the identity with the given natural key. -/
def Store.find_by_user (s : Store) (cid : String) : List AccountRow :=
  s.accounts.filter (fun a => a.clerk_user_id == cid)

/-- Modelled from the spec: `accounts.create_account` inserts an account
row for the identity and returns the generated surrogate identifier. -/
def Store.create_account (s : Store) (cid name purpose : String)
    (balance interest : Rat) : Store × Nat :=
  ({ s with
      accounts := s.accounts ++
        [⟨s.nextAccountId, cid, name, purpose, balance, interest⟩],
      nextAccountId := s.nextAccountId + 1 }, s.nextAccountId)

/-- Modelled from the spec: `positions.find_by_account` returns all
position rows belonging to the given account. -/
def Store.find_by_account (s : Store) (aid : Nat) : List PositionRow :=
  s.positions.filter (fun p => p.account_id == aid)

/-- Modelled from the spec: `positions.add_position` inserts a position row. -/
def Store.add_position (s : Store) (aid : Nat) (sym : String) (qty : Rat) :
    Store :=
  { s with positions := s.positions ++ [⟨aid, sym, qty⟩] }

/-- The three predefined accounts of `create_test_data`, in source order:
name, purpose, cash balance, cash interest. -/
def accountsFixture : List (String × String × Rat × Rat) :=
  [("401(k)", "Primary retirement savings", 5000, 0.045),
   ("Roth IRA", "Tax-free retirement savings", 1000, 0.04),
   ("Taxable Brokerage", "General investment account", 2500, 0.035)]

/-- The five predefined positions of `create_test_data`, in source order. -/
def positionsFixture : List (String × Rat) :=
  [("SPY", 100), ("QQQ", 50), ("BND", 200), ("VEA", 150), ("GLD", 25)]

/-- User block of `create_test_data`: look up the test identity by natural
key; create it only when absent (the `if existing` check). -/
def userPhase (s : Store) : Store :=
  if (s.find_by_clerk_id "test_user_001").isSome then s
  else s.create_user "test_user_001" "Test User" 25 100000

/-- Account block of `create_test_data`: `find_by_user` existence check at
identity granularity; when empty, insert the three fixture accounts in
order, collecting generated ids; otherwise reuse the ids of the existing rows. -/
def accountPhase (s : Store) : Store × List Nat :=
  let user_accounts := s.find_by_user "test_user_001"
  if user_accounts.isEmpty then
    accountsFixture.foldl
      (fun acc a =>
        let r := Store.create_account acc.1 "test_user_001" a.1 a.2.1 a.2.2.1 a.2.2.2
        (r.1, acc.2 ++ [r.2]))
      (s, ([] : List Nat))
  else (s, user_accounts.map (fun a => a.id))

/-- Position block of `create_test_data`: guarded by `if account_ids`,
takes the first account id, checks `find_by_account`, and inserts the five
fixture positions only when that account has none. -/
def positionPhase (sa : Store × List Nat) : Store :=
  match sa.2 with
  | [] => sa.1
  | aid :: _ =>
    if (sa.1.find_by_account aid).isEmpty then
      positionsFixture.foldl (fun st p => st.add_position aid p.1 p.2) sa.1
    else sa.1

/-- `create_test_data` from `reset_db.py`: the three blocks in sequence. -/
def create_test_data (s : Store) : Store :=
  positionPhase (accountPhase (userPhase s))

/-- The fixed drop list of `drop_all_tables`, in source order. -/
def tables_to_drop : List String :=
  ["positions", "accounts", "jobs", "instruments", "users"]

/-- The SQL text issued for one table drop. -/
def dropTableSql (t : String) : String :=
  "DROP TABLE IF EXISTS " ++ t ++ " CASCADE"

/-- The SQL text issued for the trigger-function drop after the loop. -/
def dropFunctionSql : String :=
  "DROP FUNCTION IF EXISTS update_updated_at_column() CASCADE"

/-- The loop body of `drop_all_tables`: each statement is attempted inside
`try/except`, so a raising `db.execute` is caught (recorded as `false`)
and the loop continues with the remaining tables. -/
def dropLoop (exec : String → Except String Unit) :
    List String → List (String × Bool)
  | [] => []
  | t :: rest =>
    (match exec (dropTableSql t) with
     | .ok _ => (dropTableSql t, true)
     | .error _ => (dropTableSql t, false)) :: dropLoop exec rest

/-- `drop_all_tables` from `reset_db.py`: the table loop followed by the
guarded drop of `update_updated_at_column`; every failure is caught, so
the function returns the full list of attempted statements with their
outcomes and never propagates an exception. -/
def drop_all_tables (exec : String → Except String Unit) :
    List (String × Bool) :=
  dropLoop exec tables_to_drop ++
    [match exec dropFunctionSql with
     | .ok _ => (dropFunctionSql, true)
     | .error _ => (dropFunctionSql, false)]

/-- Captured result of a blocking external process (`subprocess.run` with
`capture_output=True`). -/
structure ProcResult where
  returncode : Int
  stdout : String
  stderr : String

/-- Effects of one orchestrator run, in order of occurrence. -/
inductive Ev where
  | dropStmt (sql : String)
  | migrate
  | echoErr (captured : String)
  | seed
  | summary (line : String)
  | fixture
  | countQuery (table : String) (count : Nat)
  deriving DecidableEq

/-- How a run of `main` ends: a normal or `sys.exit` termination with an
exit code, or an exception propagating out uncaught. -/
inductive Outcome where
  | exited (code : Nat)
  | raised (msg : String)
  deriving DecidableEq

/-- Everything the orchestrator depends on besides its flags: the captured
results of the two external processes, the data-API connection used for
raw statements and count queries, and the store behind the model layer. -/
structure Env where
  migrations : ProcResult
  seed : ProcResult
  exec : String → Except String Unit
  query : String → Except String (List Nat)
  store : Store

/-- Command-line flags read by `main`. -/
structure Args where
  with_test_data : Bool
  skip_drop : Bool

/-- Result of a run of `main`: event trace, final store, and how it ended. -/
structure MainResult where
  events : List Ev
  store : Store
  outcome : Outcome

/-- The sentinel substring scanned for in the stdout of the seed loader. -/
def sentinel : String := "22/22 instruments loaded"

/-- Whether `pat` is an initial segment of `l` (character lists). -/
def listHasPre (pat : List Char) : List Char → Bool
  | [] => pat.isEmpty
  | c :: cs =>
    match pat with
    | [] => true
    | p :: ps => p == c && listHasPre ps cs

/-- Python `pat in s` on strings, over character lists: `pat` occurs as a
contiguous run somewhere in `l`. -/
def subOf (pat : List Char) : List Char → Bool
  | [] => pat.isEmpty
  | c :: t => listHasPre pat (c :: t) || subOf pat t

/-- The fixed list of tables counted in the final verification. -/
def verify_tables : List String :=
  ["users", "instruments", "accounts", "positions", "jobs"]

/-- The count query issued per verified table. -/
def countQuerySql (t : String) : String :=
  "SELECT COUNT(*) as count FROM " ++ t

/-- The verification loop of `main`: one count query per tracked table,
reading `result[0]` when the result list is non-empty and `0` otherwise.
There is no `try/except` around `db.query`, so a raising query aborts the
loop and the error propagates (second component `some msg`). -/
def verifyLoop (query : String → Except String (List Nat)) :
    List String → List Ev × Option String
  | [] => ([], none)
  | t :: rest =>
    match query (countQuerySql t) with
    | .error e => ([], some e)
    | .ok rows =>
      let c := match rows with
        | [] => 0
        | x :: _ => x
      let r := verifyLoop query rest
      (Ev.countQuery t c :: r.1, r.2)

/-- The tail of `main` from the seed-data step on (shared by the skip-drop
and full paths): run the seed loader, fail fast on non-zero exit, pick the
summary line by the sentinel scan, optionally run the fixture provisioner,
then run the verification loop. -/
def seedOnward (args : Args) (env : Env) (pre : List Ev) : MainResult :=
  if env.seed.returncode ≠ 0 then
    ⟨pre ++ [Ev.seed, Ev.echoErr env.seed.stderr], env.store, .exited 1⟩
  else
    let line := if subOf sentinel.data env.seed.stdout.data
      then "Loaded 22 instruments" else "Seed data loaded"
    let evs := pre ++ [Ev.seed, Ev.summary line] ++
      (if args.with_test_data then [Ev.fixture] else [])
    let st := if args.with_test_data then create_test_data env.store
      else env.store
    let v := verifyLoop env.query verify_tables
    match v.2 with
    | some e => ⟨evs ++ v.1, st, .raised e⟩
    | none => ⟨evs ++ v.1, st, .exited 0⟩

/-- `main` from `reset_db.py`: unless `--skip-drop` is set, drop all
tables and run the migration process, exiting with code 1 (after echoing
its stderr) on non-zero exit; then continue with `seedOnward`. -/
def ResetDb.main (args : Args) (env : Env) : MainResult :=
  if args.skip_drop then seedOnward args env []
  else
    let dropEvs := (drop_all_tables env.exec).map (fun p => Ev.dropStmt p.1)
    if env.migrations.returncode ≠ 0 then
      ⟨dropEvs ++ [Ev.migrate, Ev.echoErr env.migrations.stderr],
        env.store, .exited 1⟩
    else seedOnward args env (dropEvs ++ [Ev.migrate])

/-- The three account rows inserted on the fresh-account path, starting at
surrogate id `n`. -/
def fixtureAccountRows (n : Nat) : List AccountRow :=
  [⟨n, "test_user_001", "401(k)", "Primary retirement savings", 5000, 0.045⟩,
   ⟨n + 1, "test_user_001", "Roth IRA", "Tax-free retirement savings", 1000, 0.04⟩,
   ⟨n + 2, "test_user_001", "Taxable Brokerage", "General investment account", 2500, 0.035⟩]

/-- The five position rows inserted on the fresh-position path, all
referencing account `aid`. -/
def fixturePositionRows (aid : Nat) : List PositionRow :=
  [⟨aid, "SPY", 100⟩, ⟨aid, "QQQ", 50⟩, ⟨aid, "BND", 200⟩,
   ⟨aid, "VEA", 150⟩, ⟨aid, "GLD", 25⟩]

/-- Store in which exactly one of the three predefined accounts already
exists for the test identity (a prior partial failure). -/
def storeOneAccount : Store :=
  ⟨[], [⟨7, "test_user_001", "401(k)", "Primary retirement savings",
      5000, 0.045⟩], [], 8⟩

/-- Environment for witnesses: both external processes succeed, queries
answer an empty result set, the store starts empty with id counter 1. -/
def envFresh : Env :=
  ⟨⟨0, "", ""⟩, ⟨0, "", ""⟩, fun _ => Except.ok (), fun _ => Except.ok [],
    ⟨[], [], [], 1⟩⟩

/-- Environment in which the migration subprocess fails. -/
def envMigFail : Env :=
  ⟨⟨1, "", "migration exploded"⟩, ⟨0, "", ""⟩, fun _ => Except.ok (),
    fun _ => Except.ok [], ⟨[], [], [], 1⟩⟩

/-- Environment in which every count query raises, e.g. the connection is
lost right before the final verification. -/
def envQueryFail : Env :=
  ⟨⟨0, "", ""⟩, ⟨0, "", ""⟩, fun _ => Except.ok (),
    fun _ => Except.error "connection lost", ⟨[], [], [], 1⟩⟩

/-! ### Sanity checks and helper lemmas -/

example :
    (create_test_data ⟨[], [], [], 1⟩).users =
      [⟨"test_user_001", "Test User", 25, 100000⟩] := by decide

example :
    (create_test_data ⟨[], [], [], 1⟩).accounts.map (fun a => a.id) =
      [1, 2, 3] := by decide

example :
    (create_test_data ⟨[], [], [], 1⟩).positions.map
        (fun p => (p.account_id, p.symbol)) =
      [(1, "SPY"), (1, "QQQ"), (1, "BND"), (1, "VEA"), (1, "GLD")] := by
  decide

theorem userPhase_accounts (s : Store) : (userPhase s).accounts = s.accounts := by
  unfold userPhase Store.create_user
  split <;> rfl

theorem userPhase_positions (s : Store) :
    (userPhase s).positions = s.positions := by
  unfold userPhase Store.create_user
  split <;> rfl

theorem userPhase_nextAccountId (s : Store) :
    (userPhase s).nextAccountId = s.nextAccountId := by
  unfold userPhase Store.create_user
  split <;> rfl

theorem userPhase_find (s : Store) :
    ((userPhase s).find_by_clerk_id "test_user_001").isSome = true := by
  by_cases h : (s.find_by_clerk_id "test_user_001").isSome = true
  · simp [userPhase, h]
  · have h0 : s.users.find? (fun u => u.clerk_user_id == "test_user_001") = none := by
      cases hh : s.users.find? (fun u => u.clerk_user_id == "test_user_001") with
      | none => rfl
      | some u => exact absurd (by simp [Store.find_by_clerk_id, hh]) h
    simp [userPhase, Store.find_by_clerk_id, h0, h, Store.create_user]

theorem find_by_user_userPhase (s : Store) (cid : String) :
    (userPhase s).find_by_user cid = s.find_by_user cid := by
  simp [Store.find_by_user, userPhase_accounts]

theorem find_by_account_userPhase (s : Store) (aid : Nat) :
    (userPhase s).find_by_account aid = s.find_by_account aid := by
  simp [Store.find_by_account, userPhase_positions]

theorem accountPhase_of_empty (s : Store)
    (h : s.find_by_user "test_user_001" = []) :
    accountPhase s =
      (⟨s.users, s.accounts ++ fixtureAccountRows s.nextAccountId,
         s.positions, s.nextAccountId + 3⟩,
       [s.nextAccountId, s.nextAccountId + 1, s.nextAccountId + 2]) := by
  simp [accountPhase, h, accountsFixture, Store.create_account,
    fixtureAccountRows]

theorem accountPhase_of_cons (s : Store) (a : AccountRow) (l : List AccountRow)
    (h : s.find_by_user "test_user_001" = a :: l) :
    accountPhase s = (s, a.id :: l.map (fun x => x.id)) := by
  simp [accountPhase, h]

theorem positionPhase_skip (s : Store) (aid : Nat) (rest : List Nat)
    (h : (s.find_by_account aid).isEmpty = false) :
    positionPhase (s, aid :: rest) = s := by
  simp [positionPhase, h]

theorem positionPhase_insert (s : Store) (aid : Nat) (rest : List Nat)
    (h : (s.find_by_account aid).isEmpty = true) :
    positionPhase (s, aid :: rest) =
      ⟨s.users, s.accounts, s.positions ++ fixturePositionRows aid,
        s.nextAccountId⟩ := by
  simp [positionPhase, h, positionsFixture, Store.add_position,
    fixturePositionRows]

theorem accountPhase_users (s : Store) : (accountPhase s).1.users = s.users := by
  rcases hh : s.find_by_user "test_user_001" with _ | ⟨a, l⟩
  · rw [accountPhase_of_empty s hh]
  · rw [accountPhase_of_cons s a l hh]

theorem accountPhase_positions (s : Store) :
    (accountPhase s).1.positions = s.positions := by
  rcases hh : s.find_by_user "test_user_001" with _ | ⟨a, l⟩
  · rw [accountPhase_of_empty s hh]
  · rw [accountPhase_of_cons s a l hh]

theorem positionPhase_users (sa : Store × List Nat) :
    (positionPhase sa).users = sa.1.users := by
  rcases sa with ⟨s, ids⟩
  cases ids with
  | nil => rfl
  | cons aid rest =>
    by_cases h : (s.find_by_account aid).isEmpty = true
    · rw [positionPhase_insert s aid rest h]
    · rw [positionPhase_skip s aid rest (by simpa using h)]

theorem positionPhase_accounts (sa : Store × List Nat) :
    (positionPhase sa).accounts = sa.1.accounts := by
  rcases sa with ⟨s, ids⟩
  cases ids with
  | nil => rfl
  | cons aid rest =>
    by_cases h : (s.find_by_account aid).isEmpty = true
    · rw [positionPhase_insert s aid rest h]
    · rw [positionPhase_skip s aid rest (by simpa using h)]

theorem filter_fixtureAccountRows (n : Nat) :
    (fixtureAccountRows n).filter
        (fun a => a.clerk_user_id == "test_user_001") =
      fixtureAccountRows n := by
  simp [fixtureAccountRows]

theorem filter_fixturePositionRows (aid : Nat) :
    (fixturePositionRows aid).filter (fun p => p.account_id == aid) =
      fixturePositionRows aid := by
  simp [fixturePositionRows]

theorem map_positionsFixture (aid : Nat) :
    positionsFixture.map (fun p => (⟨aid, p.1, p.2⟩ : PositionRow)) =
      fixturePositionRows aid := by
  simp [positionsFixture, fixturePositionRows]

/-- If the test identity exists, it owns account `a`, and `a` already has
positions, then all three blocks of `create_test_data` take their skip
path and the store is returned unchanged. -/
theorem create_test_data_of_seeded (t : Store) (a : AccountRow)
    (l : List AccountRow)
    (h1 : (t.find_by_clerk_id "test_user_001").isSome = true)
    (h2 : t.find_by_user "test_user_001" = a :: l)
    (h3 : (t.find_by_account a.id).isEmpty = false) :
    create_test_data t = t := by
  have hu : userPhase t = t := by simp [userPhase, h1]
  unfold create_test_data
  rw [hu, accountPhase_of_cons t a l h2, positionPhase_skip t a.id _ h3]

/-- C3: the account-existence check is existence-only at identity
granularity: for every prior store state with at least one account for the
test identity, a rerun of `create_test_data` creates none of the three
predefined accounts (the accounts table is unchanged) — in particular it
does not create the remaining ones. -/
theorem seeded_accounts_skip_rerun (s : Store)
    (h : s.find_by_user "test_user_001" ≠ []) :
    (create_test_data s).accounts = s.accounts := by
  obtain ⟨a, l, hal⟩ := List.exists_cons_of_ne_nil h
  unfold create_test_data
  rw [accountPhase_of_cons (userPhase s) a l
      (by rw [find_by_user_userPhase, hal]),
    positionPhase_accounts]
  exact userPhase_accounts s

theorem seeded_accounts_skip_rerun_witness :
    storeOneAccount.find_by_user "test_user_001" ≠ [] ∧
    (create_test_data storeOneAccount).accounts = storeOneAccount.accounts :=
  ⟨by decide, seeded_accounts_skip_rerun storeOneAccount (by decide)⟩

/-- C10 (implicit): whenever the account block of `create_test_data`
completes, the collected account-id list is non-empty — either the
existence lookup returned at least one account or all three predefined
accounts were just created — so the `if account_ids` guard always holds
and the skip branch of the position block is unreachable. -/
theorem account_ids_nonempty (s : Store) :
    (accountPhase (userPhase s)).2 ≠ [] := by
  rcases hh : (userPhase s).find_by_user "test_user_001" with _ | ⟨a, l⟩
  · rw [accountPhase_of_empty _ hh]
    simp
  · rw [accountPhase_of_cons _ a l hh]
    simp

/-- C9: every position `create_test_data` inserts references the first
identifier of the account-id list obtained in the account block — whether
those accounts were freshly created or pre-existing — and the five fixture
positions are inserted exactly when that account has no positions yet
(otherwise the positions table is unchanged). -/
theorem positions_only_first_account (s : Store) (aid : Nat)
    (rest : List Nat) (h : (accountPhase (userPhase s)).2 = aid :: rest) :
    ((s.find_by_account aid).isEmpty = true →
      (create_test_data s).positions =
        s.positions ++
          positionsFixture.map (fun p => (⟨aid, p.1, p.2⟩ : PositionRow))) ∧
    ((s.find_by_account aid).isEmpty = false →
      (create_test_data s).positions = s.positions) := by
  have hpair : accountPhase (userPhase s) =
      ((accountPhase (userPhase s)).1, aid :: rest) := by
    rw [← h]
  have hpos : (accountPhase (userPhase s)).1.positions = s.positions := by
    rw [accountPhase_positions, userPhase_positions]
  have hfind : (accountPhase (userPhase s)).1.find_by_account aid =
      s.find_by_account aid := by
    simp [Store.find_by_account, hpos]
  constructor
  · intro hemp
    unfold create_test_data
    rw [hpair, positionPhase_insert _ aid rest (by rw [hfind]; exact hemp),
      map_positionsFixture]
    simp [hpos]
  · intro hne
    unfold create_test_data
    rw [hpair, positionPhase_skip _ aid rest (by rw [hfind]; exact hne)]
    exact hpos

theorem positions_only_first_account_witness :
    (accountPhase (userPhase ⟨[], [], [], 1⟩)).2 = 1 :: [2, 3] ∧
    (((⟨[], [], [], 1⟩ : Store).find_by_account 1).isEmpty = true →
      (create_test_data ⟨[], [], [], 1⟩).positions =
        (⟨[], [], [], 1⟩ : Store).positions ++
          positionsFixture.map (fun p => (⟨1, p.1, p.2⟩ : PositionRow))) ∧
    (((⟨[], [], [], 1⟩ : Store).find_by_account 1).isEmpty = false →
      (create_test_data ⟨[], [], [], 1⟩).positions =
        (⟨[], [], [], 1⟩ : Store).positions) :=
  ⟨by decide, positions_only_first_account ⟨[], [], [], 1⟩ 1 [2, 3] (by decide)⟩

/-- C1: `create_test_data` is idempotent on every store state: after a
first run the identity lookup, the account-existence check, and the
position-existence check of a second run each take the skip path, so the
second run performs no inserts and row counts are unchanged. -/
theorem fixture_provisioner_idempotent (s : Store) :
    create_test_data (create_test_data s) = create_test_data s := by
  have h1 : ((create_test_data s).find_by_clerk_id "test_user_001").isSome
      = true := by
    have hu : (create_test_data s).users = (userPhase s).users := by
      unfold create_test_data
      rw [positionPhase_users, accountPhase_users]
    simpa [Store.find_by_clerk_id, hu] using userPhase_find s
  have key : ∃ a l,
      (create_test_data s).find_by_user "test_user_001" = a :: l ∧
      ((create_test_data s).find_by_account a.id).isEmpty = false := by
    rcases hua : s.find_by_user "test_user_001" with _ | ⟨a, l⟩
    · have hupfu : (userPhase s).find_by_user "test_user_001" = [] := by
        rw [find_by_user_userPhase, hua]
      have hfilter :
          (userPhase s).accounts.filter
            (fun a => a.clerk_user_id == "test_user_001") = [] := hupfu
      have hap := accountPhase_of_empty (userPhase s) hupfu
      by_cases hp : ((userPhase s).find_by_account
          (userPhase s).nextAccountId).isEmpty = true
      · have ht : create_test_data s =
            ⟨(userPhase s).users,
             (userPhase s).accounts ++
               fixtureAccountRows (userPhase s).nextAccountId,
             (userPhase s).positions ++
               fixturePositionRows (userPhase s).nextAccountId,
             (userPhase s).nextAccountId + 3⟩ := by
          unfold create_test_data
          rw [hap]
          exact positionPhase_insert _ _ _ hp
        refine ⟨⟨(userPhase s).nextAccountId, "test_user_001", "401(k)",
            "Primary retirement savings", 5000, 0.045⟩,
          [⟨(userPhase s).nextAccountId + 1, "test_user_001", "Roth IRA",
            "Tax-free retirement savings", 1000, 0.04⟩,
           ⟨(userPhase s).nextAccountId + 2, "test_user_001",
            "Taxable Brokerage", "General investment account",
            2500, 0.035⟩], ?_, ?_⟩
        · rw [ht]
          show ((userPhase s).accounts ++
              fixtureAccountRows (userPhase s).nextAccountId).filter
              (fun a => a.clerk_user_id == "test_user_001") = _
          rw [List.filter_append, hfilter, filter_fixtureAccountRows]
          rfl
        · rw [ht]
          show (((userPhase s).positions ++
              fixturePositionRows (userPhase s).nextAccountId).filter
              (fun p => p.account_id == (userPhase s).nextAccountId)).isEmpty
              = false
          rw [List.filter_append, filter_fixturePositionRows]
          simp [fixturePositionRows]
      · have ht : create_test_data s =
            ⟨(userPhase s).users,
             (userPhase s).accounts ++
               fixtureAccountRows (userPhase s).nextAccountId,
             (userPhase s).positions,
             (userPhase s).nextAccountId + 3⟩ := by
          unfold create_test_data
          rw [hap]
          exact positionPhase_skip _ _ _ (by simpa using hp)
        refine ⟨⟨(userPhase s).nextAccountId, "test_user_001", "401(k)",
            "Primary retirement savings", 5000, 0.045⟩,
          [⟨(userPhase s).nextAccountId + 1, "test_user_001", "Roth IRA",
            "Tax-free retirement savings", 1000, 0.04⟩,
           ⟨(userPhase s).nextAccountId + 2, "test_user_001",
            "Taxable Brokerage", "General investment account",
            2500, 0.035⟩], ?_, ?_⟩
        · rw [ht]
          show ((userPhase s).accounts ++
              fixtureAccountRows (userPhase s).nextAccountId).filter
              (fun a => a.clerk_user_id == "test_user_001") = _
          rw [List.filter_append, hfilter, filter_fixtureAccountRows]
          rfl
        · rw [ht]
          simpa using hp
    · have hupfu : (userPhase s).find_by_user "test_user_001" = a :: l := by
        rw [find_by_user_userPhase, hua]
      have hap := accountPhase_of_cons (userPhase s) a l hupfu
      by_cases hp : ((userPhase s).find_by_account a.id).isEmpty = true
      · have ht : create_test_data s =
            ⟨(userPhase s).users, (userPhase s).accounts,
             (userPhase s).positions ++ fixturePositionRows a.id,
             (userPhase s).nextAccountId⟩ := by
          unfold create_test_data
          rw [hap]
          exact positionPhase_insert _ _ _ hp
        refine ⟨a, l, ?_, ?_⟩
        · rw [ht]
          exact hupfu
        · rw [ht]
          show (((userPhase s).positions ++
              fixturePositionRows a.id).filter
              (fun p => p.account_id == a.id)).isEmpty = false
          rw [List.filter_append, filter_fixturePositionRows]
          simp [fixturePositionRows]
      · have ht : create_test_data s = userPhase s := by
          unfold create_test_data
          rw [hap]
          exact positionPhase_skip _ _ _ (by simpa using hp)
        refine ⟨a, l, ?_, ?_⟩
        · rw [ht]
          exact hupfu
        · rw [ht]
          simpa using hp
  obtain ⟨a, l, h2, h3⟩ := key
  exact create_test_data_of_seeded _ a l h1 h2 h3

theorem seedOnward_store_eq (args : Args) (env : Env) (pre : List Ev) :
    (seedOnward args env pre).store =
      if env.seed.returncode ≠ 0 then env.store
      else if args.with_test_data then create_test_data env.store
      else env.store := by
  unfold seedOnward
  by_cases hsr : env.seed.returncode ≠ 0
  · simp [hsr]
  · simp only [hsr, if_false]
    cases hv : (verifyLoop env.query verify_tables).2 <;> simp [hv, hsr]

theorem main_store_eq (args : Args) (env : Env) :
    (ResetDb.main args env).store =
      if args.skip_drop = false ∧ env.migrations.returncode ≠ 0 then env.store
      else if env.seed.returncode ≠ 0 then env.store
      else if args.with_test_data then create_test_data env.store
      else env.store := by
  unfold ResetDb.main
  by_cases hs : args.skip_drop
  · simp [hs, seedOnward_store_eq]
  · by_cases hm : env.migrations.returncode ≠ 0
    · simp [hs, hm]
    · simp [hs, hm, seedOnward_store_eq]

theorem seedOnward_outcome_eq (args : Args) (env : Env) (pre : List Ev) :
    (seedOnward args env pre).outcome =
      if env.seed.returncode ≠ 0 then Outcome.exited 1
      else
        match (verifyLoop env.query verify_tables).2 with
        | some e => Outcome.raised e
        | none => Outcome.exited 0 := by
  unfold seedOnward
  by_cases hsr : env.seed.returncode ≠ 0
  · simp [hsr]
  · simp only [hsr, if_false]
    cases hv : (verifyLoop env.query verify_tables).2 <;> simp [hv, hsr]

theorem main_is_seedOnward (args : Args) (env : Env)
    (hpre : args.skip_drop = true ∨ env.migrations.returncode = 0) :
    ∃ pre, ResetDb.main args env = seedOnward args env pre := by
  by_cases hs : args.skip_drop
  · exact ⟨[], by simp [ResetDb.main, hs]⟩
  · have hm := hpre.resolve_left (by simpa using hs)
    exact ⟨(drop_all_tables env.exec).map (fun p => Ev.dropStmt p.1) ++
        [Ev.migrate], by simp [ResetDb.main, hs, hm]⟩

theorem seedOnward_summary_mem (args : Args) (env : Env) (pre : List Ev)
    (hseed : env.seed.returncode = 0) :
    Ev.summary
        (if subOf sentinel.data env.seed.stdout.data then
          "Loaded 22 instruments" else "Seed data loaded") ∈
      (seedOnward args env pre).events := by
  unfold seedOnward
  simp only [hseed, ne_eq, not_true_eq_false, if_false]
  cases hv : (verifyLoop env.query verify_tables).2 <;> simp [hv]

theorem verifyLoop_ok (query : String → Except String (List Nat))
    (ts : List String)
    (hok : ∀ t ∈ ts, ∃ rows, query (countQuerySql t) = Except.ok rows) :
    (verifyLoop query ts).2 = none ∧
    (∀ e ∈ (verifyLoop query ts).1, ∃ t c, e = Ev.countQuery t c) ∧
    (∀ t ∈ ts, query (countQuerySql t) = Except.ok [] →
      Ev.countQuery t 0 ∈ (verifyLoop query ts).1) := by
  induction ts with
  | nil => simp [verifyLoop]
  | cons t rest ih =>
    obtain ⟨rows, hr⟩ := hok t (by simp)
    obtain ⟨ih1, ih2, ih3⟩ := ih (fun u hu => hok u (by simp [hu]))
    refine ⟨?_, ?_, ?_⟩
    · simp only [verifyLoop, hr]
      exact ih1
    · intro e he
      simp only [verifyLoop, hr, List.mem_cons] at he
      rcases he with he | he
      · exact ⟨t, _, he⟩
      · exact ih2 e he
    · intro u hu hq
      simp only [verifyLoop, hr, List.mem_cons]
      rcases List.mem_cons.mp hu with rfl | hu
      · rw [hq] at hr
        cases hr
        exact Or.inl rfl
      · exact Or.inr (ih3 u hu hq)

/-- C2: on a fresh (empty) environment with `--with-test-data`, after the
run the identity table holds exactly one row with natural key
`test_user_001`; the account table holds exactly the three predefined
accounts owned by that identity, inserted in order 401(k), Roth IRA,
Taxable Brokerage (ids `n`, `n+1`, `n+2`); and the position table holds
exactly the five fixture rows, all under the first of those accounts, with
exactly the pairs (SPY,100), (QQQ,50), (BND,200), (VEA,150), (GLD,25). -/
theorem fresh_run_fixture_shape (env : Env) (n : Nat)
    (hstore : env.store = ⟨[], [], [], n⟩)
    (hmig : env.migrations.returncode = 0)
    (hseed : env.seed.returncode = 0) :
    (ResetDb.main ⟨true, false⟩ env).store =
      ⟨[⟨"test_user_001", "Test User", 25, 100000⟩],
       fixtureAccountRows n, fixturePositionRows n, n + 3⟩ := by
  rw [main_store_eq]
  simp only [hmig, hseed, hstore]
  norm_num
  unfold create_test_data
  rw [show userPhase ⟨[], [], [], n⟩ =
      ⟨[⟨"test_user_001", "Test User", 25, 100000⟩], [], [], n⟩ from by
    simp [userPhase, Store.find_by_clerk_id, Store.create_user]]
  rw [accountPhase_of_empty _ (by simp [Store.find_by_user])]
  exact positionPhase_insert _ _ _ (by simp [Store.find_by_account])

theorem fresh_run_fixture_shape_witness :
    (envFresh.store = ⟨[], [], [], 1⟩ ∧
      envFresh.migrations.returncode = 0 ∧
      envFresh.seed.returncode = 0) ∧
    (ResetDb.main ⟨true, false⟩ envFresh).store =
      ⟨[⟨"test_user_001", "Test User", 25, 100000⟩],
       fixtureAccountRows 1, fixturePositionRows 1, 1 + 3⟩ :=
  ⟨⟨rfl, rfl, rfl⟩, fresh_run_fixture_shape envFresh 1 rfl rfl rfl⟩

/-- C4: for every behavior of the underlying `db.execute` — including one
that fails on any subset of statements — `drop_all_tables` attempts the
cascading drops of all five tables in the fixed source order positions,
accounts, jobs, instruments, users, then the drop of the
`update_updated_at_column` function; each failure is caught per statement,
the loop always completes, and (being a total function into a plain list)
nothing propagates to the caller. -/
theorem drop_all_tables_fixed_sequence (exec : String → Except String Unit) :
    (drop_all_tables exec).map Prod.fst =
      tables_to_drop.map dropTableSql ++ [dropFunctionSql] := by
  have h : ∀ l, (dropLoop exec l).map Prod.fst = l.map dropTableSql := by
    intro l
    induction l with
    | nil => rfl
    | cons t rest ih =>
      simp only [dropLoop, List.map_cons, ih]
      cases exec (dropTableSql t) <;> simp
  simp only [drop_all_tables, List.map_append, h]
  cases exec dropFunctionSql <;> simp

/-- C5: if the migration subprocess reports a non-zero exit status, `main`
echoes its captured stderr, ends with exit code 1, and never reaches the
seed loader, the fixture provisioner, or the verification queries. -/
theorem migration_fail_fast (args : Args) (env : Env)
    (hskip : args.skip_drop = false)
    (hmig : env.migrations.returncode ≠ 0) :
    (ResetDb.main args env).outcome = Outcome.exited 1 ∧
    Ev.echoErr env.migrations.stderr ∈ (ResetDb.main args env).events ∧
    Ev.seed ∉ (ResetDb.main args env).events ∧
    Ev.fixture ∉ (ResetDb.main args env).events ∧
    ∀ t c, Ev.countQuery t c ∉ (ResetDb.main args env).events := by
  unfold ResetDb.main
  simp [hskip, hmig]

theorem migration_fail_fast_witness :
    ((⟨false, false⟩ : Args).skip_drop = false ∧
      envMigFail.migrations.returncode ≠ 0) ∧
    ((ResetDb.main ⟨false, false⟩ envMigFail).outcome = Outcome.exited 1 ∧
    Ev.echoErr envMigFail.migrations.stderr ∈
      (ResetDb.main ⟨false, false⟩ envMigFail).events ∧
    Ev.seed ∉ (ResetDb.main ⟨false, false⟩ envMigFail).events ∧
    Ev.fixture ∉ (ResetDb.main ⟨false, false⟩ envMigFail).events ∧
    ∀ t c, Ev.countQuery t c ∉
      (ResetDb.main ⟨false, false⟩ envMigFail).events) :=
  ⟨⟨rfl, by decide⟩, migration_fail_fast ⟨false, false⟩ envMigFail rfl (by decide)⟩

/-- Every event the verification loop records is a count query. -/
theorem verifyLoop_events_shape (query : String → Except String (List Nat)) :
    ∀ ts, ∀ e ∈ (verifyLoop query ts).1, ∃ t c, e = Ev.countQuery t c := by
  intro ts
  induction ts with
  | nil => simp [verifyLoop]
  | cons t rest ih =>
    intro e he
    unfold verifyLoop at he
    cases hq : query (countQuerySql t) with
    | error msg =>
      rw [hq] at he
      simp at he
    | ok rows =>
      rw [hq] at he
      simp only [List.mem_cons] at he
      rcases he with rfl | he
      · exact ⟨t, _, rfl⟩
      · exact ih e he

/-- The events recorded from the seed step on: the seed event itself,
followed only by error echo, summary, fixture, or count-query events. -/
theorem seedOnward_events (args : Args) (env : Env) (pre : List Ev) :
    ∃ tail, (seedOnward args env pre).events = pre ++ Ev.seed :: tail ∧
      ∀ e ∈ tail, e = Ev.echoErr env.seed.stderr ∨ (∃ s, e = Ev.summary s) ∨
        e = Ev.fixture ∨ ∃ t c, e = Ev.countQuery t c := by
  unfold seedOnward
  by_cases hsr : env.seed.returncode ≠ 0
  · refine ⟨[Ev.echoErr env.seed.stderr], by simp [hsr], ?_⟩
    intro e he
    simp only [List.mem_singleton] at he
    exact Or.inl he
  · simp only [hsr, if_false]
    refine ⟨Ev.summary (if subOf sentinel.data env.seed.stdout.data then
        "Loaded 22 instruments" else "Seed data loaded") ::
        ((if args.with_test_data then [Ev.fixture] else []) ++
          (verifyLoop env.query verify_tables).1), ?_, ?_⟩
    · cases hv : (verifyLoop env.query verify_tables).2 <;> simp [hv]
    · intro e he
      rcases List.mem_cons.mp he with rfl | he
      · exact Or.inr (Or.inl ⟨_, rfl⟩)
      rcases List.mem_append.mp he with he | he
      · by_cases hw : args.with_test_data
        · simp only [hw, if_true, List.mem_singleton] at he
          exact Or.inr (Or.inr (Or.inl he))
        · simp [hw] at he
      · exact Or.inr (Or.inr (Or.inr (verifyLoop_events_shape env.query _ e he)))

/-- C6: with `--skip-drop` set, no drop statement is issued and the
migration subprocess is not invoked; the run proceeds directly to the seed
loader (the very first recorded event is the seed step). -/
theorem skip_drop_bypasses_teardown (args : Args) (env : Env)
    (hskip : args.skip_drop = true) :
    (∀ sql, Ev.dropStmt sql ∉ (ResetDb.main args env).events) ∧
    Ev.migrate ∉ (ResetDb.main args env).events ∧
    (ResetDb.main args env).events.head? = some Ev.seed := by
  have hmain : ResetDb.main args env = seedOnward args env [] := by
    simp [ResetDb.main, hskip]
  obtain ⟨tail, hev, htail⟩ := seedOnward_events args env []
  rw [hmain, hev]
  simp only [List.nil_append]
  refine ⟨?_, ?_, rfl⟩
  · intro sql hmem
    rcases List.mem_cons.mp hmem with h | h
    · simp at h
    · rcases htail _ h with h | ⟨u, h⟩ | h | ⟨t, c, h⟩ <;> simp at h
  · intro hmem
    rcases List.mem_cons.mp hmem with h | h
    · simp at h
    · rcases htail _ h with h | ⟨u, h⟩ | h | ⟨t, c, h⟩ <;> simp at h

theorem skip_drop_bypasses_teardown_witness :
    (⟨false, true⟩ : Args).skip_drop = true ∧
    ((∀ sql, Ev.dropStmt sql ∉ (ResetDb.main ⟨false, true⟩ envFresh).events) ∧
     Ev.migrate ∉ (ResetDb.main ⟨false, true⟩ envFresh).events ∧
     (ResetDb.main ⟨false, true⟩ envFresh).events.head? = some Ev.seed) :=
  ⟨rfl, skip_drop_bypasses_teardown ⟨false, true⟩ envFresh rfl⟩

/-- C8: after a zero-exit seed-loader run whose captured stdout does not
contain the sentinel substring, the orchestrator merely picks the generic
summary line; the absence of the sentinel is not an error — the outcome
and the final store are the same as they would be for any other captured
stdout. -/
theorem sentinel_absence_benign (args : Args) (env : Env) (alt : String)
    (hpre : args.skip_drop = true ∨ env.migrations.returncode = 0)
    (hseed : env.seed.returncode = 0)
    (habs : subOf sentinel.data env.seed.stdout.data = false) :
    Ev.summary "Seed data loaded" ∈ (ResetDb.main args env).events ∧
    (ResetDb.main args env).outcome =
      (ResetDb.main args
        { env with seed := { env.seed with stdout := alt } }).outcome ∧
    (ResetDb.main args env).store =
      (ResetDb.main args
        { env with seed := { env.seed with stdout := alt } }).store := by
  refine ⟨?_, ?_, ?_⟩
  · obtain ⟨pre, hmain⟩ := main_is_seedOnward args env hpre
    rw [hmain]
    have hmem := seedOnward_summary_mem args env pre hseed
    rw [habs] at hmem
    simpa using hmem
  · obtain ⟨pre, hmain⟩ := main_is_seedOnward args env hpre
    obtain ⟨pre2, hmain2⟩ := main_is_seedOnward args
      { env with seed := { env.seed with stdout := alt } } hpre
    rw [hmain, hmain2, seedOnward_outcome_eq, seedOnward_outcome_eq]
  · rw [main_store_eq args env,
      main_store_eq args { env with seed := { env.seed with stdout := alt } }]

theorem sentinel_absence_benign_witness :
    (((⟨false, false⟩ : Args).skip_drop = true ∨
        envFresh.migrations.returncode = 0) ∧
      envFresh.seed.returncode = 0 ∧
      subOf sentinel.data envFresh.seed.stdout.data = false) ∧
    (Ev.summary "Seed data loaded" ∈
        (ResetDb.main ⟨false, false⟩ envFresh).events ∧
      (ResetDb.main ⟨false, false⟩ envFresh).outcome =
        (ResetDb.main ⟨false, false⟩
          { envFresh with
            seed := { envFresh.seed with
              stdout := "22/22 instruments loaded" } }).outcome ∧
      (ResetDb.main ⟨false, false⟩ envFresh).store =
        (ResetDb.main ⟨false, false⟩
          { envFresh with
            seed := { envFresh.seed with
              stdout := "22/22 instruments loaded" } }).store) :=
  ⟨⟨Or.inr rfl, rfl, by decide⟩,
    sentinel_absence_benign ⟨false, false⟩ envFresh
      "22/22 instruments loaded" (Or.inr rfl) rfl (by decide)⟩

/-- C7 counterexample: a count-query error is NOT treated as informational
— there is no error handling around `db.query`, so a raising query
propagates out of `main` and the run fails instead of completing. -/
theorem verification_error_fatal :
    (ResetDb.main ⟨false, false⟩ envQueryFail).outcome =
      Outcome.raised "connection lost" ∧
    ∀ c, (ResetDb.main ⟨false, false⟩ envQueryFail).outcome ≠
      Outcome.exited c := by
  constructor
  · rfl
  · intro c h
    cases h

/-- C7 amended: the Verification Reporter is read-only — it records only
count-query events and the final store never depends on the query
function — and a count of zero (an empty result set) is reported as the
value 0, a valid outcome rather than an error; however, query errors are
not caught, so the loop is guaranteed to complete without raising only
when every count query succeeds. -/
theorem verification_reporter_amended (args : Args) (env : Env)
    (hok : ∀ t ∈ verify_tables,
      ∃ rows, env.query (countQuerySql t) = Except.ok rows) :
    (verifyLoop env.query verify_tables).2 = none ∧
    (∀ e ∈ (verifyLoop env.query verify_tables).1,
      ∃ t c, e = Ev.countQuery t c) ∧
    (∀ t ∈ verify_tables, env.query (countQuerySql t) = Except.ok [] →
      Ev.countQuery t 0 ∈ (verifyLoop env.query verify_tables).1) ∧
    ∀ q2, (ResetDb.main args { env with query := q2 }).store =
      (ResetDb.main args env).store := by
  obtain ⟨h1, h2, h3⟩ := verifyLoop_ok env.query verify_tables hok
  refine ⟨h1, h2, h3, ?_⟩
  intro q2
  rw [main_store_eq args { env with query := q2 }, main_store_eq args env]

theorem verification_reporter_amended_witness :
    (∀ t ∈ verify_tables,
      ∃ rows, envFresh.query (countQuerySql t) = Except.ok rows) ∧
    ((verifyLoop envFresh.query verify_tables).2 = none ∧
      (∀ e ∈ (verifyLoop envFresh.query verify_tables).1,
        ∃ t c, e = Ev.countQuery t c) ∧
      (∀ t ∈ verify_tables,
        envFresh.query (countQuerySql t) = Except.ok [] →
        Ev.countQuery t 0 ∈ (verifyLoop envFresh.query verify_tables).1) ∧
      ∀ q2, (ResetDb.main ⟨false, false⟩
          { envFresh with query := q2 }).store =
        (ResetDb.main ⟨false, false⟩ envFresh).store) :=
  ⟨fun _ _ => ⟨[], rfl⟩,
    verification_reporter_amended ⟨false, false⟩ envFresh
      (fun _ _ => ⟨[], rfl⟩)⟩
